import Mathlib

/-!
Shallow embedding of the youtube-downloader repository's two route handlers
(`app/api/video-info/route.ts` and `app/api/download/route.ts`) and the format
filter used by the metadata resolver, together with theorems checking the
specification's claims against this embedding.
-/

namespace VideoApp

/-! ## JavaScript `String.prototype.includes` (substring containment) -/

/-- Whether `p` is a prefix of `s`, on character lists. -/
def matchAt : List Char → List Char → Bool
  | _, [] => true
  | [], _ :: _ => false
  | a :: s, b :: p => a == b && matchAt s p

/-- Whether `p` occurs as a contiguous substring of `s`, on character lists. -/
def hasSubstr : List Char → List Char → Bool
  | [], p => matchAt [] p
  | a :: s, p => matchAt (a :: s) p || hasSubstr s p

/-- Model of JavaScript `s.includes(pat)`: substring containment. -/
def jsIncludes (s pat : String) : Bool :=
  hasSubstr s.toList pat.toList

theorem matchAt_iff (p s : List Char) : matchAt s p = true ↔ ∃ t, p ++ t = s := by
  induction p generalizing s with
  | nil =>
    simp [matchAt]
  | cons b p ih =>
    cases s with
    | nil =>
      simp [matchAt]
    | cons a s =>
      simp only [matchAt, Bool.and_eq_true, beq_iff_eq, ih, List.cons_append]
      constructor
      · rintro ⟨rfl, t, rfl⟩
        exact ⟨t, rfl⟩
      · rintro ⟨t, h⟩
        injection h with h1 h2
        exact ⟨h1.symm, t, h2⟩

theorem hasSubstr_iff (p s : List Char) :
    hasSubstr s p = true ↔ ∃ u v, u ++ p ++ v = s := by
  induction s with
  | nil =>
    simp only [hasSubstr, matchAt_iff]
    constructor
    · rintro ⟨t, h⟩
      exact ⟨[], t, h⟩
    · rintro ⟨u, v, h⟩
      rcases List.append_eq_nil.mp ((List.append_assoc u p v) ▸ h) with ⟨hu, hpv⟩
      exact ⟨v, by simp_all⟩
  | cons a s ih =>
    simp only [hasSubstr, Bool.or_eq_true, matchAt_iff, ih]
    constructor
    · rintro (⟨t, h⟩ | ⟨u, v, h⟩)
      · exact ⟨[], t, by simpa using h⟩
      · exact ⟨a :: u, v, by simp [h]⟩
    · rintro ⟨u, v, h⟩
      cases u with
      | nil =>
        exact Or.inl ⟨v, by simpa using h⟩
      | cons c u =>
        rw [List.cons_append, List.cons_append] at h
        injection h with _ h2
        exact Or.inr ⟨u, v, h2⟩

theorem jsIncludes_iff (s pat : String) :
    jsIncludes s pat = true ↔ ∃ u v, u ++ pat.toList ++ v = s.toList :=
  hasSubstr_iff pat.toList s.toList

/-! ## Data model of the tool's JSON output (`Format`, `VideoInfo`) -/

/-- One encoding record from the external tool's JSON output
(interface `Format` in `app/api/video-info/route.ts`). -/
structure Format where
  format_id : String
  format_note : String
  ext : String
  resolution : String
  fps : Option Nat
  filesize : Option Nat
  filesize_approx : Option Nat
  vcodec : String
  acodec : String
  deriving DecidableEq

/-- The consolidated JSON description of the asset
(interface `VideoInfo` in `app/api/video-info/route.ts`). -/
structure VideoInfo where
  id : String
  title : String
  thumbnail : String
  formats : List Format
  deriving DecidableEq

/-- The narrowed record sent to the frontend (the `.map` projection in
`filteredFormats`): codec fields dropped, everything else copied. -/
structure ProjFormat where
  format_id : String
  format_note : String
  ext : String
  resolution : String
  fps : Option Nat
  filesize : Option Nat
  filesize_approx : Option Nat
  deriving DecidableEq

/-- The `.map` body of `filteredFormats`: copy the seven surviving fields. -/
def projectFormat (f : Format) : ProjFormat :=
  ⟨f.format_id, f.format_note, f.ext, f.resolution, f.fps, f.filesize, f.filesize_approx⟩

/-- The `.filter` predicate of `filteredFormats` in
`app/api/video-info/route.ts`: combined streams, or high-res video-only
streams whose resolution string contains one of the three allowlisted tags
(JavaScript `includes` is substring containment). -/
def includeFormat (f : Format) : Bool :=
  (f.vcodec != "none" && f.acodec != "none") ||
  (f.vcodec != "none" && f.acodec == "none" &&
    (jsIncludes f.resolution "1920x1080" ||
     jsIncludes f.resolution "2560x1440" ||
     jsIncludes f.resolution "3840x2160"))

/-- `filteredFormats` from `app/api/video-info/route.ts`: filter then project. -/
def filteredFormats (formats : List Format) : List ProjFormat :=
  (formats.filter includeFormat).map projectFormat

/-! ## The `POST /video-info` handler -/

/-- A JavaScript thrown value as seen by a `catch` block: either an
`Error` object carrying a message, or anything else. -/
inductive JsError where
  | errorObj (message : String)
  | nonError
  deriving DecidableEq

/-- Body of the video-info JSON response: success payload or `{ error }`. -/
inductive InfoBody where
  | success (id title thumbnail : String) (formats : List ProjFormat)
  | failure (error : String)
  deriving DecidableEq

/-- A video-info HTTP response: status code plus JSON body. -/
structure InfoResponse where
  status : Nat
  body : InfoBody
  deriving DecidableEq

/-- JavaScript falsiness of an optional string parameter (`!url`):
true when the parameter is absent or the empty string. -/
def missingOrEmpty : Option String → Bool
  | none => true
  | some s => s == ""

/-- The generic fallback error message of the video-info route. -/
def fallbackMessage : String :=
  "Failed to fetch video details. The video may be private, age-restricted, or the URL is invalid."

/-- The `POST` handler of `app/api/video-info/route.ts`. The external tool
invocation is a parameter (`tool`), its value the JSON result or the thrown
error. Returns the response together with the number of tool invocations. -/
def videoInfoPOST (url? : Option String) (tool : Except JsError VideoInfo) :
    InfoResponse × Nat :=
  if missingOrEmpty url? then
    (⟨400, InfoBody.failure "URL is required"⟩, 0)
  else
    match tool with
    | Except.ok vi =>
      (⟨200, InfoBody.success vi.id vi.title vi.thumbnail (filteredFormats vi.formats)⟩, 1)
    | Except.error (JsError.errorObj m) => (⟨500, InfoBody.failure m⟩, 1)
    | Except.error JsError.nonError => (⟨500, InfoBody.failure fallbackMessage⟩, 1)

/-! ## The `GET /download` handler and its `ReadableStream` -/

/-- An event emitted by the spawned process's stdout channel: a data chunk
(a byte buffer, modelled as a list of bytes), natural end-of-data, or an
error carrying a message. -/
inductive StdoutEvent where
  | data (chunk : List Nat)
  | ended
  | errored (msg : String)
  deriving DecidableEq

/-- Terminal state of the returned `ReadableStream`. -/
inductive StreamEnd where
  | closed
  | errored (msg : String)
  deriving DecidableEq

/-- Observable state of the `ReadableStream` controller: the chunks enqueued
so far, in order, and the terminal signal once one has been issued. -/
structure ControllerState where
  chunks : List (List Nat)
  fin : Option StreamEnd
  deriving DecidableEq

/-- The three stdout listeners installed in `start`: `data` enqueues the
chunk verbatim, `end` closes the controller, `error` errors it. Once the
controller has terminated, no further event has any effect. -/
def handleEvent (st : ControllerState) (e : StdoutEvent) : ControllerState :=
  match st.fin with
  | some _ => st
  | none =>
    match e with
    | StdoutEvent.data c => { st with chunks := st.chunks ++ [c] }
    | StdoutEvent.ended => { st with fin := some StreamEnd.closed }
    | StdoutEvent.errored m => { st with fin := some (StreamEnd.errored m) }

/-- Run the controller over the stdout event sequence. -/
def runStream (events : List StdoutEvent) : ControllerState :=
  events.foldl handleEvent ⟨[], none⟩

/-- The spawned external process as the route sees it: possibly a stdout
channel, modelled by the event sequence it will emit (`downloadStream.stdout`
may be absent). -/
structure SpawnedProcess where
  stdout : Option (List StdoutEvent)
  deriving DecidableEq

/-- The `start(controller)` body of the `ReadableStream` in
`app/api/download/route.ts`: if `stdout` is absent, error the controller with
the fixed message and stop; otherwise install the three listeners. -/
def startStream (p : SpawnedProcess) : ControllerState :=
  match p.stdout with
  | none => ⟨[], some (StreamEnd.errored "Failed to get download stream.")⟩
  | some events => runStream events

/-- What a cancellation does to the external process. -/
inductive ProcessAction where
  | noop
  | terminate
  deriving DecidableEq

/-- An underlying source for a `ReadableStream`: the `start` callback, and an
optional `cancel` callback invoked when the consumer cancels the stream. -/
structure UnderlyingSource where
  start : SpawnedProcess → ControllerState
  cancel : Option (SpawnedProcess → ProcessAction)

/-- Streams-API semantics of consumer cancellation: run the `cancel`
callback when the source supplies one, otherwise do nothing. -/
def cancelBehavior (src : UnderlyingSource) (p : SpawnedProcess) : ProcessAction :=
  match src.cancel with
  | none => ProcessAction.noop
  | some f => f p

/-- The underlying source constructed in `app/api/download/route.ts`: the
object literal passed to `new ReadableStream` has a `start` property and no
`cancel` property. -/
def downloadSource : UnderlyingSource :=
  ⟨startStream, none⟩

/-- The option object passed to `youtubedl.exec` together with the url. -/
structure DownloadArgs where
  url : String
  format : String
  output : String
  noWarnings : Bool
  noCheckCertificates : Bool
  preferFreeFormats : Bool
  youtubeSkipDashManifest : Bool
  deriving DecidableEq

/-- The `youtubedl.exec` invocation of `app/api/download/route.ts`:
format selector `` `${formatId}+ba` ``, output target `"-"`, and the four
permissiveness flags. -/
def downloadArgs (url formatId : String) : DownloadArgs :=
  ⟨url, formatId ++ "+ba", "-", true, true, true, true⟩

/-- Body of a download response: the byte stream, or a JSON `{ error }`. -/
inductive DownloadBody where
  | streamBody (st : ControllerState)
  | jsonError (error : String)
  deriving DecidableEq

/-- A download HTTP response: status, headers, body. -/
structure DownloadResponse where
  status : Nat
  headers : List (String × String)
  body : DownloadBody
  deriving DecidableEq

/-- The headers set on the success path of the download route. -/
def downloadHeaders : List (String × String) :=
  [("Content-Type", "video/mp4"),
   ("Content-Disposition", "attachment; filename=\"video.mp4\"")]

/-- The `GET` handler of `app/api/download/route.ts`. The spawn of the
external process is a parameter (`spawn`), mapping the constructed arguments
to either a process handle or a thrown error (caught by the handler's
`catch`). Returns the response together with the list of spawn invocations
performed, in order. -/
def downloadGET (url? formatId? : Option String)
    (spawn : DownloadArgs → Except JsError SpawnedProcess) :
    DownloadResponse × List DownloadArgs :=
  if missingOrEmpty url? || missingOrEmpty formatId? then
    (⟨400, [("Content-Type", "application/json")],
      DownloadBody.jsonError "URL and Format ID are required"⟩, [])
  else
    let args := downloadArgs (url?.getD "") (formatId?.getD "")
    match spawn args with
    | Except.ok p =>
      (⟨200, downloadHeaders, DownloadBody.streamBody (downloadSource.start p)⟩, [args])
    | Except.error (JsError.errorObj m) =>
      (⟨500, [("Content-Type", "application/json")], DownloadBody.jsonError m⟩, [args])
    | Except.error JsError.nonError =>
      (⟨500, [("Content-Type", "application/json")],
        DownloadBody.jsonError "Failed to start download."⟩, [args])

/-! ## Concrete sample records used in counterexamples and witnesses -/

/-- A video-only record whose resolution string strictly contains the tag
"1920x1080" without being equal to it. -/
def videoOnlyOddRes : Format :=
  ⟨"137", "1080p60", "mp4", "1920x1080p60", some 60, none, none, "avc1.640028", "none"⟩

/-- A combined (video+audio) record carrying neither size field. -/
def sizelessCombined : Format :=
  ⟨"18", "360p", "mp4", "640x360", some 30, none, none, "avc1.42001E", "mp4a.40.2"⟩

/-- An audio-only record. -/
def audioOnlySample : Format :=
  ⟨"140", "audio", "m4a", "audio only", none, some 500, none, "none", "mp4a.40.2"⟩

/-- A sample tool output mixing the three records above. -/
def sampleInfo : VideoInfo :=
  ⟨"dQw4w9WgXcQ", "Sample Video", "https://i.ytimg.com/vi/x/default.jpg",
   [sizelessCombined, videoOnlyOddRes, audioOnlySample]⟩

/-! ## Resolver claims -/

theorem includeFormat_eq_true_iff (f : Format) :
    includeFormat f = true ↔
      (f.vcodec ≠ "none" ∧ f.acodec ≠ "none") ∨
      (f.vcodec ≠ "none" ∧ f.acodec = "none" ∧
        ((∃ u v, u ++ "1920x1080".toList ++ v = f.resolution.toList) ∨
         (∃ u v, u ++ "2560x1440".toList ++ v = f.resolution.toList) ∨
         (∃ u v, u ++ "3840x2160".toList ++ v = f.resolution.toList))) := by
  simp only [includeFormat, Bool.or_eq_true, Bool.and_eq_true, bne_iff_ne, beq_iff_eq,
    jsIncludes_iff, or_assoc, and_assoc]

/-- Claim C1 (counterexample): the record `videoOnlyOddRes` is video-only and
its resolution tag "1920x1080p60" is not exactly any of the three allowlisted
tags, yet the Resolver includes it in the returned list, because the code
tests substring containment, not exact equality. -/
theorem C1_counterexample :
    filteredFormats [videoOnlyOddRes] = [projectFormat videoOnlyOddRes] ∧
    videoOnlyOddRes.vcodec ≠ "none" ∧
    videoOnlyOddRes.acodec = "none" ∧
    videoOnlyOddRes.resolution ≠ "1920x1080" ∧
    videoOnlyOddRes.resolution ≠ "2560x1440" ∧
    videoOnlyOddRes.resolution ≠ "3840x2160" := by
  decide

/-- Claim C1 (amended): a record survives the Resolver's filter iff either
both codec fields are present (neither "none"), or it is video-only and its
resolution string CONTAINS one of 1920x1080, 2560x1440, 3840x2160 as a
substring; every surviving record's projection appears in the returned list. -/
theorem C1_resolver_inclusion (l : List Format) (f : Format) :
    (f ∈ l.filter includeFormat ↔
      f ∈ l ∧
      ((f.vcodec ≠ "none" ∧ f.acodec ≠ "none") ∨
       (f.vcodec ≠ "none" ∧ f.acodec = "none" ∧
         ((∃ u v, u ++ "1920x1080".toList ++ v = f.resolution.toList) ∨
          (∃ u v, u ++ "2560x1440".toList ++ v = f.resolution.toList) ∨
          (∃ u v, u ++ "3840x2160".toList ++ v = f.resolution.toList))))) ∧
    (f ∈ l.filter includeFormat → projectFormat f ∈ filteredFormats l) := by
  constructor
  · rw [List.mem_filter, includeFormat_eq_true_iff]
  · intro hf
    exact List.mem_map_of_mem projectFormat hf

/-- Claim C1 (amended) witness at a concrete list and record. -/
theorem C1_resolver_inclusion_witness :
    (videoOnlyOddRes ∈ [videoOnlyOddRes].filter includeFormat ↔
      videoOnlyOddRes ∈ [videoOnlyOddRes] ∧
      ((videoOnlyOddRes.vcodec ≠ "none" ∧ videoOnlyOddRes.acodec ≠ "none") ∨
       (videoOnlyOddRes.vcodec ≠ "none" ∧ videoOnlyOddRes.acodec = "none" ∧
         ((∃ u v, u ++ "1920x1080".toList ++ v = videoOnlyOddRes.resolution.toList) ∨
          (∃ u v, u ++ "2560x1440".toList ++ v = videoOnlyOddRes.resolution.toList) ∨
          (∃ u v, u ++ "3840x2160".toList ++ v = videoOnlyOddRes.resolution.toList))))) ∧
    (videoOnlyOddRes ∈ [videoOnlyOddRes].filter includeFormat →
      projectFormat videoOnlyOddRes ∈ filteredFormats [videoOnlyOddRes]) :=
  C1_resolver_inclusion [videoOnlyOddRes] videoOnlyOddRes

/-- Claim C4: a record that passes the inclusion policy is kept in the
returned list even with both size fields absent, and the filter's verdict is
unchanged by any rewriting of the two size fields (it never tests them). -/
theorem C4_size_fields_never_tested (l : List Format) (f : Format) (fs fa : Option Nat)
    (hf : f ∈ l) (hinc : includeFormat f = true) :
    projectFormat f ∈ filteredFormats l ∧
    includeFormat { f with filesize := fs, filesize_approx := fa } = includeFormat f := by
  constructor
  · exact List.mem_map_of_mem projectFormat (List.mem_filter.mpr ⟨hf, hinc⟩)
  · rfl

/-- Claim C4 witness: the size-less combined record passes the filter and is
kept; rewriting its size fields does not change the verdict. -/
theorem C4_witness :
    projectFormat sizelessCombined ∈ filteredFormats [sizelessCombined] ∧
    includeFormat { sizelessCombined with filesize := some 1024, filesize_approx := some 2048 } =
      includeFormat sizelessCombined :=
  C4_size_fields_never_tested [sizelessCombined] sizelessCombined (some 1024) (some 2048)
    (by decide) (by decide)

/-- Claim C10: the filter's verdict depends only on the vcodec, acodec and
resolution fields — two records agreeing on those three fields receive the
same verdict whatever their other fields. -/
theorem C10_filter_depends_only_on_codecs_and_resolution (f g : Format)
    (hv : f.vcodec = g.vcodec) (ha : f.acodec = g.acodec)
    (hr : f.resolution = g.resolution) :
    includeFormat f = includeFormat g := by
  unfold includeFormat
  rw [hv, ha, hr]

/-- Claim C10 witness: two records agreeing on codecs and resolution but
differing in id, note, ext, fps and sizes receive the same verdict. -/
theorem C10_witness :
    includeFormat ⟨"137", "1080p", "mp4", "1920x1080", some 30, some 1000, none, "avc1", "none"⟩ =
    includeFormat ⟨"299", "other", "webm", "1920x1080", none, none, some 5, "avc1", "none"⟩ :=
  C10_filter_depends_only_on_codecs_and_resolution _ _ rfl rfl rfl

/-- Claim C9: on a successful resolve the response copies id, title and
thumbnail verbatim, every returned record arises from a surviving source
record with all seven projected fields copied verbatim, and the returned
list is an order-preserving sublist of the projection of the tool's list. -/
theorem C9_projection_verbatim_order_preserving (u : String) (vi : VideoInfo)
    (hu : u ≠ "") :
    (videoInfoPOST (some u) (Except.ok vi)).1 =
      ⟨200, InfoBody.success vi.id vi.title vi.thumbnail (filteredFormats vi.formats)⟩ ∧
    (∀ g ∈ filteredFormats vi.formats, ∃ f, f ∈ vi.formats ∧ includeFormat f = true ∧
      g.format_id = f.format_id ∧ g.format_note = f.format_note ∧ g.ext = f.ext ∧
      g.resolution = f.resolution ∧ g.fps = f.fps ∧ g.filesize = f.filesize ∧
      g.filesize_approx = f.filesize_approx) ∧
    List.Sublist (filteredFormats vi.formats) (vi.formats.map projectFormat) := by
  refine ⟨?_, ?_, ?_⟩
  · have h : missingOrEmpty (some u) = false := by
      simp only [missingOrEmpty]
      exact beq_eq_false_iff_ne.mpr hu
    simp [videoInfoPOST, h]
  · intro g hg
    rcases List.mem_map.mp hg with ⟨f, hf, rfl⟩
    rcases List.mem_filter.mp hf with ⟨hfl, hfi⟩
    exact ⟨f, hfl, hfi, rfl, rfl, rfl, rfl, rfl, rfl, rfl⟩
  · exact List.Sublist.map projectFormat (List.filter_sublist vi.formats)

/-- Claim C9 witness at a concrete url and tool output. -/
theorem C9_witness :
    (videoInfoPOST (some "https://youtu.be/dQw4w9WgXcQ") (Except.ok sampleInfo)).1 =
      ⟨200, InfoBody.success sampleInfo.id sampleInfo.title sampleInfo.thumbnail
        (filteredFormats sampleInfo.formats)⟩ ∧
    (∀ g ∈ filteredFormats sampleInfo.formats, ∃ f, f ∈ sampleInfo.formats ∧
      includeFormat f = true ∧
      g.format_id = f.format_id ∧ g.format_note = f.format_note ∧ g.ext = f.ext ∧
      g.resolution = f.resolution ∧ g.fps = f.fps ∧ g.filesize = f.filesize ∧
      g.filesize_approx = f.filesize_approx) ∧
    List.Sublist (filteredFormats sampleInfo.formats) (sampleInfo.formats.map projectFormat) :=
  C9_projection_verbatim_order_preserving "https://youtu.be/dQw4w9WgXcQ" sampleInfo (by decide)

/-! ## Stream Bridge claims -/

theorem runStream_data_append (chunks : List (List Nat)) (rest : List StdoutEvent)
    (acc : List (List Nat)) :
    List.foldl handleEvent ⟨acc, none⟩ (chunks.map StdoutEvent.data ++ rest) =
    List.foldl handleEvent ⟨acc ++ chunks, none⟩ rest := by
  induction chunks generalizing acc with
  | nil => simp
  | cons c cs ih =>
    simp only [List.map_cons, List.cons_append, List.foldl_cons]
    have h : handleEvent ⟨acc, none⟩ (StdoutEvent.data c) = ⟨acc ++ [c], none⟩ := rfl
    rw [h, ih]
    simp

/-- Claim C5: the returned stream relays stdout faithfully — for a stdout
channel that emits any chunk sequence followed by end-of-data, the stream
delivers exactly those chunks in order and closes cleanly; with a terminal
error signal instead, it delivers the chunks and terminates with that error. -/
theorem C5_faithful_relay (chunks : List (List Nat)) (e : String) :
    startStream ⟨some (chunks.map StdoutEvent.data ++ [StdoutEvent.ended])⟩ =
      ⟨chunks, some StreamEnd.closed⟩ ∧
    startStream ⟨some (chunks.map StdoutEvent.data ++ [StdoutEvent.errored e])⟩ =
      ⟨chunks, some (StreamEnd.errored e)⟩ := by
  constructor <;>
  · show runStream _ = _
    rw [runStream, runStream_data_append]
    simp [handleEvent]

/-- Claim C2 (counterexample): with both parameters supplied and a spawned
process lacking a stdout channel, the handler does not produce an HTTP 500 —
it returns a 200 response carrying the success download headers, whose body
stream is immediately errored. -/
theorem C2_counterexample :
    (downloadGET (some "https://youtu.be/dQw4w9WgXcQ") (some "137")
      (fun _ => Except.ok ⟨none⟩)).1.status = 200 ∧
    ¬ (downloadGET (some "https://youtu.be/dQw4w9WgXcQ") (some "137")
      (fun _ => Except.ok ⟨none⟩)).1.status = 500 ∧
    (downloadGET (some "https://youtu.be/dQw4w9WgXcQ") (some "137")
      (fun _ => Except.ok ⟨none⟩)).1.headers = downloadHeaders := by
  decide

/-- Claim C2 (amended): with non-empty url and formatId, if the spawned
process has no obtainable stdout channel, the returned byte stream is errored
with the fixed message "Failed to get download stream." before any chunk is
delivered, but the HTTP response is the committed 200 success response with
the download headers, not a 500 error response. -/
theorem C2_no_stdout_errors_stream_inside_200 (url formatId : String)
    (spawn : DownloadArgs → Except JsError SpawnedProcess)
    (hu : url ≠ "") (hf : formatId ≠ "")
    (hs : spawn (downloadArgs url formatId) = Except.ok ⟨none⟩) :
    (downloadGET (some url) (some formatId) spawn).1 =
      ⟨200, downloadHeaders,
        DownloadBody.streamBody ⟨[], some (StreamEnd.errored "Failed to get download stream.")⟩⟩ := by
  have hcond : (missingOrEmpty (some url) || missingOrEmpty (some formatId)) = false := by
    simp only [missingOrEmpty, Bool.or_eq_false_iff]
    exact ⟨beq_eq_false_iff_ne.mpr hu, beq_eq_false_iff_ne.mpr hf⟩
  simp [downloadGET, hcond, hs, downloadSource, startStream]

/-- Claim C2 (amended) witness at concrete inputs. -/
theorem C2_no_stdout_witness :
    (downloadGET (some "https://youtu.be/x") (some "22")
      (fun _ => Except.ok ⟨none⟩)).1 =
      ⟨200, downloadHeaders,
        DownloadBody.streamBody ⟨[], some (StreamEnd.errored "Failed to get download stream.")⟩⟩ :=
  C2_no_stdout_errors_stream_inside_200 "https://youtu.be/x" "22"
    (fun _ => Except.ok ⟨none⟩) (by decide) (by decide) rfl

/-- Claim C3: the underlying source passed to the ReadableStream constructor
supplies no cancel callback, so a client disconnect (stream cancellation)
performs no action on the external process — it is never terminated. -/
theorem C3_no_teardown_on_cancel (p : SpawnedProcess) :
    cancelBehavior downloadSource p = ProcessAction.noop ∧
    downloadSource.cancel = none :=
  ⟨rfl, rfl⟩

/-- Claim C3 witness at a concrete process handle. -/
theorem C3_witness :
    cancelBehavior downloadSource ⟨some [StdoutEvent.data [7], StdoutEvent.ended]⟩ =
      ProcessAction.noop ∧
    downloadSource.cancel = none :=
  C3_no_teardown_on_cancel ⟨some [StdoutEvent.data [7], StdoutEvent.ended]⟩

/-- Claim C5 witness at a concrete chunk sequence and error message. -/
theorem C5_witness :
    startStream ⟨some ([[1, 2], [3]].map StdoutEvent.data ++ [StdoutEvent.ended])⟩ =
      ⟨[[1, 2], [3]], some StreamEnd.closed⟩ ∧
    startStream ⟨some ([[1, 2], [3]].map StdoutEvent.data ++ [StdoutEvent.errored "boom"])⟩ =
      ⟨[[1, 2], [3]], some (StreamEnd.errored "boom")⟩ :=
  C5_faithful_relay [[1, 2], [3]] "boom"

/-- Claim C6: with non-empty url and formatId, the handler performs exactly
one spawn, whose format selector is the verbatim formatId followed by "+ba",
whose output target is "-", and whose url is the verbatim url. -/
theorem C6_format_selector_verbatim (url formatId : String)
    (spawn : DownloadArgs → Except JsError SpawnedProcess)
    (hu : url ≠ "") (hf : formatId ≠ "") :
    (downloadGET (some url) (some formatId) spawn).2 = [downloadArgs url formatId] ∧
    (downloadArgs url formatId).format = formatId ++ "+ba" ∧
    (downloadArgs url formatId).output = "-" ∧
    (downloadArgs url formatId).url = url := by
  refine ⟨?_, rfl, rfl, rfl⟩
  have hcond : (missingOrEmpty (some url) || missingOrEmpty (some formatId)) = false := by
    simp only [missingOrEmpty, Bool.or_eq_false_iff]
    exact ⟨beq_eq_false_iff_ne.mpr hu, beq_eq_false_iff_ne.mpr hf⟩
  cases hsp : spawn (downloadArgs url formatId) with
  | ok p => simp [downloadGET, hcond, hsp]
  | error e =>
    cases e with
    | errorObj m => simp [downloadGET, hcond, hsp]
    | nonError => simp [downloadGET, hcond, hsp]

/-- Claim C6 witness at concrete inputs. -/
theorem C6_witness :
    (downloadGET (some "https://youtu.be/x") (some "137")
      (fun _ => Except.error JsError.nonError)).2 = [downloadArgs "https://youtu.be/x" "137"] ∧
    (downloadArgs "https://youtu.be/x" "137").format = "137" ++ "+ba" ∧
    (downloadArgs "https://youtu.be/x" "137").output = "-" ∧
    (downloadArgs "https://youtu.be/x" "137").url = "https://youtu.be/x" :=
  C6_format_selector_verbatim "https://youtu.be/x" "137"
    (fun _ => Except.error JsError.nonError) (by decide) (by decide)

/-- Claim C7: the download handler returns 400 with the JSON error body iff
the url or formatId parameter is missing or empty, and in that case no spawn
is performed. -/
theorem C7_bad_request_iff_missing_param (url? formatId? : Option String)
    (spawn : DownloadArgs → Except JsError SpawnedProcess) :
    ((downloadGET url? formatId? spawn).1.status = 400 ↔
      (missingOrEmpty url? = true ∨ missingOrEmpty formatId? = true)) ∧
    ((missingOrEmpty url? = true ∨ missingOrEmpty formatId? = true) →
      (downloadGET url? formatId? spawn).1.body =
        DownloadBody.jsonError "URL and Format ID are required" ∧
      (downloadGET url? formatId? spawn).2 = []) := by
  cases hb : (missingOrEmpty url? || missingOrEmpty formatId?) with
  | true =>
    have hd := Bool.or_eq_true_iff.mp hb
    refine ⟨⟨fun _ => hd, fun _ => ?_⟩, fun _ => ?_⟩ <;>
      simp [downloadGET, hb]
  | false =>
    have hd := Bool.or_eq_false_iff.mp hb
    constructor
    · constructor
      · intro h400
        exfalso
        revert h400
        simp only [downloadGET, hb, Bool.false_eq_true, if_false]
        cases hsp : spawn (downloadArgs (url?.getD "") (formatId?.getD "")) with
        | ok p => simp
        | error e => cases e <;> simp
      · rintro (h | h)
        · rw [hd.1] at h
          exact absurd h (by simp)
        · rw [hd.2] at h
          exact absurd h (by simp)
    · rintro (h | h)
      · rw [hd.1] at h
        exact absurd h (by simp)
      · rw [hd.2] at h
        exact absurd h (by simp)

/-- Claim C7 witness at concrete inputs (both parameters absent). -/
theorem C7_witness :
    ((downloadGET none none (fun _ => Except.ok ⟨none⟩)).1.status = 400 ↔
      (missingOrEmpty none = true ∨ missingOrEmpty none = true)) ∧
    ((missingOrEmpty none = true ∨ missingOrEmpty none = true) →
      (downloadGET none none (fun _ => Except.ok ⟨none⟩)).1.body =
        DownloadBody.jsonError "URL and Format ID are required" ∧
      (downloadGET none none (fun _ => Except.ok ⟨none⟩)).2 = []) :=
  C7_bad_request_iff_missing_param none none (fun _ => Except.ok ⟨none⟩)

/-- Claim C8: the video-info handler returns 400 iff the url is missing or
empty; when the url is present and the tool throws an Error, the response is
500 with that Error's message; when it throws a non-Error, the response is
500 with the fixed fallback message; the tool is invoked at most once. -/
theorem C8_resolve_error_paths (url? : Option String)
    (tool : Except JsError VideoInfo) (m : String) :
    ((videoInfoPOST url? tool).1.status = 400 ↔ missingOrEmpty url? = true) ∧
    (missingOrEmpty url? = false → tool = Except.error (JsError.errorObj m) →
      (videoInfoPOST url? tool).1 = ⟨500, InfoBody.failure m⟩) ∧
    (missingOrEmpty url? = false → tool = Except.error JsError.nonError →
      (videoInfoPOST url? tool).1 = ⟨500, InfoBody.failure fallbackMessage⟩) ∧
    (videoInfoPOST url? tool).2 ≤ 1 := by
  cases hb : missingOrEmpty url? with
  | true =>
    refine ⟨⟨fun _ => rfl, fun _ => ?_⟩, fun h => absurd h (by simp), fun h => absurd h (by simp), ?_⟩ <;>
      simp [videoInfoPOST, hb]
  | false =>
    refine ⟨⟨fun h400 => ?_, fun h => absurd h (by simp)⟩, fun _ ht => ?_, fun _ ht => ?_, ?_⟩
    · exfalso
      revert h400
      simp only [videoInfoPOST, hb, Bool.false_eq_true, if_false]
      cases tool with
      | ok vi => simp
      | error e => cases e <;> simp
    · rw [ht]
      simp [videoInfoPOST, hb]
    · rw [ht]
      simp [videoInfoPOST, hb]
    · simp only [videoInfoPOST, hb, Bool.false_eq_true, if_false]
      cases tool with
      | ok vi => simp
      | error e => cases e <;> simp

/-- Claim C8 witness at concrete inputs (url present, tool throws an Error
object carrying the message "Video unavailable"). -/
theorem C8_witness :
    ((videoInfoPOST (some "https://youtu.be/x")
        (Except.error (JsError.errorObj "Video unavailable"))).1.status = 400 ↔
      missingOrEmpty (some "https://youtu.be/x") = true) ∧
    (missingOrEmpty (some "https://youtu.be/x") = false →
      Except.error (JsError.errorObj "Video unavailable") =
        Except.error (ε := JsError) (α := VideoInfo) (JsError.errorObj "Video unavailable") →
      (videoInfoPOST (some "https://youtu.be/x")
        (Except.error (JsError.errorObj "Video unavailable"))).1 =
        ⟨500, InfoBody.failure "Video unavailable"⟩) ∧
    (missingOrEmpty (some "https://youtu.be/x") = false →
      Except.error (JsError.errorObj "Video unavailable") =
        Except.error (ε := JsError) (α := VideoInfo) JsError.nonError →
      (videoInfoPOST (some "https://youtu.be/x")
        (Except.error (JsError.errorObj "Video unavailable"))).1 =
        ⟨500, InfoBody.failure fallbackMessage⟩) ∧
    (videoInfoPOST (some "https://youtu.be/x")
      (Except.error (JsError.errorObj "Video unavailable"))).2 ≤ 1 :=
  C8_resolve_error_paths (some "https://youtu.be/x")
    (Except.error (JsError.errorObj "Video unavailable")) "Video unavailable"

end VideoApp
